import Mathlib

/-!
Verification of `src/sensor.py` (Senssun BLE body-scale sensor).

The payload decoder and the connection-manager methods are embedded
shallowly: bytes are `Nat` values below 256, Python exceptions are an
explicit `PyError` effect, and the mutable entity attributes are a
`MState` record threaded through each method.  Each definition mirrors
one Python function of the source, statement order included, so that a
raised exception leaves exactly the mutations that happened before the
raise.
-/

/-- Python exception kinds that the embedded code can raise.
`structError` is `struct.error` from `unpack` on a buffer whose size is
not exactly the format size; `nameError` is the `NameError` raised at
`read_stable(ctr1)` in `decode_weight` (see below); `typeError` is the
`TypeError` that `round(None, 1)` would raise. -/
inductive PyError
  | structError
  | nameError
  | typeError
deriving DecidableEq, Repr

/-- Reinterpretation of one byte as a signed value, struct format `b`:
values 128..255 are read as negative two's-complement. -/
def signedByte (b : Nat) : Int :=
  if b < 128 then (b : Int) else (b : Int) - 256

/-- Big-endian signed 16-bit integer from two bytes, struct format `>h`. -/
def signedShortBE (hi lo : Nat) : Int :=
  let v := hi * 256 + lo
  if v < 32768 then (v : Int) else (v : Int) - 65536

/-- `unpack(">bhhb", xvalue)` from line 67 of `src/sensor.py`: requires
exactly 6 bytes, otherwise `struct.error`; on success yields the signed
byte at offset 0, the big-endian signed shorts at offsets 1-2 and 3-4,
and the signed byte at offset 5. -/
def unpack_bhhb (xvalue : List Nat) : Except PyError (Int × Int × Int × Int) :=
  match xvalue with
  | [b0, b1, b2, b3, b4, b5] =>
      Except.ok (signedByte b0, signedShortBE b1 b2, signedShortBE b3 b4, signedByte b5)
  | _ => Except.error PyError.structError

/-- `read_stable` from lines 57-59 of `src/sensor.py`:
`int((ctr1 & 0xA0) == 0xA0)`.  Python's `&` acts on the two's-complement
representation, and for a non-negative mask below 2^8 only the low 8
bits of the left operand matter, i.e. `ctr1 mod 256` (Python `%` and
Lean `Int` `%` both give the representative in `[0, 256)` here). -/
def read_stable (ctr1 : Int) : Nat :=
  if ((ctr1 % 256).toNat &&& 0xA0) == 0xA0 then 1 else 0

/-- `decode_weight` from lines 61-78 of `src/sensor.py`.

The source computes `xvalue = data[9:15]` (a slice of at most 6 bytes,
exactly 6 iff the payload has at least 15 bytes), unpacks it with
`unpack(">bhhb", xvalue)` — which raises `struct.error` when the slice
is shorter than 6 bytes — and then evaluates `read_stable(ctr1)` as a
bare name.  `read_stable` is an attribute of class `SenssunScaleSensor`,
and Python class scope is not part of the lookup chain inside a method
body (local → enclosing functions → module globals → builtins), so that
call raises `NameError` on every execution that reaches it: the
`return None` and `return weight_grams` lines are unreachable. -/
def decode_weight (data : List Nat) : Except PyError (Option Int) :=
  let xvalue := (data.drop 9).take 6
  match unpack_bhhb xvalue with
  | Except.error e => Except.error e
  | Except.ok (_sign, _weight_raw, _ignored, _ctr1) =>
      Except.error PyError.nameError

instance {ε α : Type} [DecidableEq ε] [DecidableEq α] : DecidableEq (Except ε α) :=
  fun a b =>
    match a, b with
    | Except.error e1, Except.error e2 =>
        if h : e1 = e2 then isTrue (by rw [h]) else
          isFalse (fun hc => h (Except.error.inj hc))
    | Except.ok v1, Except.ok v2 =>
        if h : v1 = v2 then isTrue (by rw [h]) else
          isFalse (fun hc => h (Except.ok.inj hc))
    | Except.error _, Except.ok _ => isFalse (fun hc => Except.noConfusion hc)
    | Except.ok _, Except.error _ => isFalse (fun hc => Except.noConfusion hc)

/-- The `BleakClient` object held in `self._client`, reduced to the one
attribute the manager reads: `is_connected`. -/
structure ClientObj where
  is_connected : Bool
deriving DecidableEq, Repr

/-- The mutable attributes of a `SenssunScaleSensor` instance that the
embedded methods read or write.  Timers are single-shot scheduled
callbacks; a pending timer is recorded as `some delaySeconds`, an absent
or cancelled one as `none`.  `idleArmCount` counts the
`hass.loop.call_later(60, self.disconnect)` calls performed, and
`transportConnects` counts the `self._client.connect()` transport calls
performed, so that re-arming and re-connecting stay observable. -/
structure MState where
  _state : Option Int
  _available : Bool
  _client : Option ClientObj
  _disconnect_timer : Option Nat
  _retry_task : Option Nat
  idleArmCount : Nat
  transportConnects : Nat
deriving DecidableEq, Repr

/-- Python truthiness of `self._client and self._client.is_connected`
(lines 96 and 164 of `src/sensor.py`). -/
def clientIsConnected (st : MState) : Bool :=
  match st._client with
  | some c => c.is_connected
  | none => false

/-- `round(weight, 1)` from line 84 of `src/sensor.py`: on an `int` it
returns the value unchanged; on `None` it raises `TypeError`. -/
def pyRound : Option Int → Except PyError Int
  | none => Except.error PyError.typeError
  | some w => Except.ok w

/-- `notification_handler` from lines 81-92 of `src/sensor.py`,
as a state transformer returning the state after the call together
with the exception that escaped the call, if any.  Mutations happen in
source order, so an exception leaves exactly the attributes written
before the raising statement.  In this source `decode_weight` raises on
every input, so execution never gets past line 83: the weight
assignment, the availability flag and the disconnect-timer reset at
lines 84-92 are unreachable. -/
def notification_handler (st : MState) (data : List Nat) : MState × Option PyError :=
  match decode_weight data with
  | Except.error e => (st, some e)
  | Except.ok weight =>
      match pyRound weight with
      | Except.error e => (st, some e)
      | Except.ok r =>
          let st := { st with _state := some r, _available := true }
          let st := { st with _disconnect_timer := some 60,
                              idleArmCount := st.idleArmCount + 1 }
          (st, none)

/-- Outcome of the transport work inside the `try` block of `connect`
(connect, start_notify): success, `asyncio.TimeoutError`, `BleakError`,
or any other exception — the three `except` clauses of lines 114-125. -/
inductive ConnectOutcome
  | success
  | timeoutError
  | bleakError
  | otherError
deriving DecidableEq, Repr

/-- `connect` from lines 94-125 of `src/sensor.py`, with the transport
result abstracted as `outcome`.  The `async with self._connect_lock`
block is represented by the sequential execution of the body: the event
loop plus the lock serialize the critical section, so one embedded call
is one lock-protected run.  If the held client is connected the method
returns at once (line 97) without touching the transport.  Otherwise a
fresh disconnected `BleakClient` is stored (line 100) and one transport
connect call is made (line 101); on success availability is set, the
notification subscription is started and the initial idle-disconnect
timer armed (lines 103-112); on any of the three exception kinds the
handler marks the entity unavailable and runs `_schedule_retry`
(lines 114-125), which cancels a pending retry task and schedules a
single new one that waits `self._connection_retry_interval = 60`
seconds (lines 127-135).  No exception escapes the method. -/
def connect (outcome : ConnectOutcome) (st : MState) : MState × Option PyError :=
  if clientIsConnected st then
    (st, none)
  else
    let st := { st with _client := some { is_connected := false } }
    let st := { st with transportConnects := st.transportConnects + 1 }
    match outcome with
    | ConnectOutcome.success =>
        let st := { st with _client := some { is_connected := true },
                            _available := true }
        let st := { st with _disconnect_timer := some 60,
                            idleArmCount := st.idleArmCount + 1 }
        (st, none)
    | _ =>
        let st := { st with _available := false }
        let st := { st with _retry_task := some 60 }
        (st, none)

/-- Outcome of `await self._client.disconnect()` inside `_disconnect`:
either it returns normally or it raises some `Exception` (this also
covers the `AttributeError` raised when `self._client` is `None`). -/
inductive CloseOutcome
  | ok
  | raises
deriving DecidableEq, Repr

/-- `_disconnect` from lines 141-150 of `src/sensor.py`: the close call
sits in a `try` whose `except Exception` only logs, and the `finally`
block unconditionally clears the client handle and the availability
flag.  So whatever the close call does, the method returns normally
with `_client = None` and `_available = False`. -/
def disconnect_coro (close : CloseOutcome) (st : MState) : MState × Option PyError :=
  match close with
  | CloseOutcome.ok => ({ st with _client := none, _available := false }, none)
  | CloseOutcome.raises => ({ st with _client := none, _available := false }, none)

/-- `async_will_remove_from_hass` from lines 156-160 of `src/sensor.py`
— the teardown hook: it cancels the pending retry task, if any, and
awaits `_disconnect`.  It never touches `self._disconnect_timer`. -/
def async_will_remove_from_hass (close : CloseOutcome) (st : MState) : MState × Option PyError :=
  let st := if st._retry_task.isSome then { st with _retry_task := none } else st
  disconnect_coro close st

/-- The spec's stable scenario payload
`00 00 00 00 00 00 00 00 00 01 00 05 00 00 A0`. -/
def scenarioPayload : List Nat :=
  [0, 0, 0, 0, 0, 0, 0, 0, 0, 0x01, 0x00, 0x05, 0x00, 0x00, 0xA0]

/-- The spec's unstable scenario payload: same bytes but `ctr1 = 0x00`. -/
def unstablePayload : List Nat :=
  [0, 0, 0, 0, 0, 0, 0, 0, 0, 0x01, 0x00, 0x05, 0x00, 0x00, 0x00]

/-- A 16-byte payload that agrees with `scenarioPayload` on bytes 9-14
and differs everywhere else. -/
def altPayload : List Nat :=
  [255, 255, 255, 255, 255, 255, 255, 255, 255, 0x01, 0x00, 0x05, 0x00, 0x00, 0xA0, 77]

/-- A state in which the manager holds a connected client. -/
def connectedState : MState :=
  { _state := some 500, _available := true, _client := some { is_connected := true },
    _disconnect_timer := some 60, _retry_task := none, idleArmCount := 1,
    transportConnects := 1 }

/-- A state with no client at all. -/
def idleState : MState :=
  { _state := none, _available := false, _client := none,
    _disconnect_timer := none, _retry_task := none, idleArmCount := 0,
    transportConnects := 0 }

/-- A state in which both an idle-disconnect timer and a retry task are
pending. -/
def teardownState : MState :=
  { _state := some 500, _available := true, _client := some { is_connected := true },
    _disconnect_timer := some 60, _retry_task := some 60, idleArmCount := 1,
    transportConnects := 1 }

/-- `unpack(">bhhb", xvalue)` raises `struct.error` whenever the buffer
does not hold exactly 6 bytes. -/
theorem unpack_bhhb_short (xs : List Nat) (h : xs.length ≠ 6) :
    unpack_bhhb xs = Except.error PyError.structError := by
  unfold unpack_bhhb
  split
  · rename_i b0 b1 b2 b3 b4 b5
    simp at h
  · rfl

/-- The body of `decode_weight` with the local `xvalue` binding
zeta-reduced. -/
theorem decode_weight_eq (data : List Nat) :
    decode_weight data =
      match unpack_bhhb ((data.drop 9).take 6) with
      | Except.error e => Except.error e
      | Except.ok (_sign, _weight_raw, _ignored, _ctr1) =>
          Except.error PyError.nameError := rfl

/-- `unpack_bhhb` only ever fails with `struct.error`. -/
theorem unpack_bhhb_error_kind (xs : List Nat) (e : PyError)
    (hx : unpack_bhhb xs = Except.error e) : e = PyError.structError := by
  unfold unpack_bhhb at hx
  split at hx
  · exact absurd hx (by simp)
  · exact (Except.error.inj hx).symm

/-- Every call to `decode_weight` raises: `struct.error` when the slice
`data[9:15]` is shorter than 6 bytes, and otherwise `NameError` at the
bare `read_stable(ctr1)` lookup. -/
theorem decode_weight_raises (data : List Nat) :
    decode_weight data = Except.error PyError.structError ∨
    decode_weight data = Except.error PyError.nameError := by
  rw [decode_weight_eq]
  cases h : unpack_bhhb ((data.drop 9).take 6) with
  | error e =>
      left
      rw [unpack_bhhb_error_kind _ e h]
  | ok v =>
      right
      rcases v with ⟨s, w, ig, c⟩
      rfl

/-- `decode_weight` reads the payload only through the slice
`data[9:15]`. -/
theorem decode_weight_eq_of_slice_eq (d1 d2 : List Nat)
    (h : (d1.drop 9).take 6 = (d2.drop 9).take 6) :
    decode_weight d1 = decode_weight d2 := by
  rw [decode_weight_eq, decode_weight_eq, h]

/-- Two payloads that agree on bytes 9-14 (as optional lookups) have
equal slices `data[9:15]`. -/
theorem slice_9_15_eq (d1 d2 : List Nat)
    (hagree : ∀ i, i < 15 → 9 ≤ i → d1[i]? = d2[i]?) :
    (d1.drop 9).take 6 = (d2.drop 9).take 6 := by
  apply List.ext_getElem?
  intro n
  by_cases hn : n < 6
  · rw [List.getElem?_take_of_lt hn, List.getElem?_take_of_lt hn,
      List.getElem?_drop, List.getElem?_drop]
    exact hagree (9 + n) (by omega) (by omega)
  · rw [List.getElem?_eq_none, List.getElem?_eq_none] <;>
      simp [List.length_take, List.length_drop] <;> omega

/-- Whatever the close outcome and the pending-retry situation,
teardown ends with the retry task cancelled, the client cleared, the
availability flag down, the idle-disconnect timer untouched, and no
escaping exception. -/
theorem teardown_result (close : CloseOutcome) (st : MState) :
    async_will_remove_from_hass close st =
      ({ st with _retry_task := none, _client := none, _available := false }, none) := by
  cases st with
  | mk s a c d r ia tc => cases close <;> cases r <;> rfl

/-- C1: the claim says that a 15+ byte payload with `(ctr1 & 0xA0) ==
0xA0` and signed big-endian weight field `w` decodes to `w * 100`
grams, and that the scenario payload decodes to 500 grams.  On this
source `decode_weight` instead raises `NameError` at the bare
`read_stable(ctr1)` call (a class attribute is not visible as a bare
name inside a method), so the scenario payload produces no reading at
all.  The remaining conjuncts record what the intended arithmetic would
have given: `unpack` yields `weight_raw = 5` and `ctr1 = -96`, the
stability helper accepts `-96`, and `5 * 100 = 500`. -/
theorem C1_decode_scenario_raises :
    decode_weight scenarioPayload = Except.error PyError.nameError ∧
    unpack_bhhb ((scenarioPayload.drop 9).take 6) = Except.ok (1, 5, 0, -96) ∧
    read_stable (-96) = 1 ∧
    (5 : Int) * 100 = 500 := by decide

/-- C2 counterexample: the claim says a payload shorter than 15 bytes
makes `decode` return `None` without raising; on the empty payload the
code instead raises `struct.error` from `unpack`. -/
theorem C2_counterexample :
    decode_weight [] = Except.error PyError.structError ∧
    decode_weight [] ≠ Except.ok none := by decide

/-- C2 (amended): for every payload shorter than 15 bytes,
`decode_weight` raises `struct.error` — the slice `data[9:15]` has
fewer than 6 bytes, so `unpack(">bhhb", ...)` fails; the function never
returns `None` for such input. -/
theorem C2_short_payload_raises (data : List Nat) (h : data.length < 15) :
    decode_weight data = Except.error PyError.structError := by
  rw [decode_weight_eq, unpack_bhhb_short]
  simp [List.length_take, List.length_drop]
  omega

/-- C2 witness: the amended statement applied to a concrete 3-byte
payload. -/
theorem C2_short_payload_raises_witness :
    ([0, 1, 2] : List Nat).length < 15 ∧
    decode_weight [0, 1, 2] = Except.error PyError.structError :=
  ⟨by decide, C2_short_payload_raises [0, 1, 2] (by decide)⟩

/-- C3: the claim says a notification whose payload decodes to `None`
leaves the reported state unchanged.  In this source no payload ever
decodes to `None`: on the spec's own unstable scenario payload
(`ctr1 = 0x00`) `decode_weight` raises `NameError`, the exception
escapes `notification_handler` before any assignment runs, and the
state — weight, availability, timers, client — is left unchanged only
because the handler crashed. -/
theorem C3_unstable_notification_raises (st : MState) :
    notification_handler st unstablePayload = (st, some PyError.nameError) := rfl

/-- C4: the claim says every notification re-arms the idle-disconnect
timer regardless of decode outcome.  In this source the timer-reset
lines are unreachable: `decode_weight` raises on every payload, the
exception escapes `notification_handler` first, and the state —
including the pending idle timer and the count of timer armings — is
never touched. -/
theorem C4_idle_timer_never_reset (st : MState) (data : List Nat) :
    (notification_handler st data).1 = st ∧
    (notification_handler st data).1._disconnect_timer = st._disconnect_timer ∧
    (notification_handler st data).1.idleArmCount = st.idleArmCount ∧
    (notification_handler st data).2 ≠ none := by
  rcases decode_weight_raises data with h | h <;> simp [notification_handler, h]

/-- C5: the claim says a 15+ byte payload whose control byte does not
have both `0xA0` bits set makes `decode` return `None`.  The source
instead raises `NameError` before the stability test can run; the
second conjunct records that the stability helper itself would indeed
have rejected `ctr1 = 0x00`. -/
theorem C5_unstable_payload_raises :
    decode_weight unstablePayload = Except.error PyError.nameError ∧
    read_stable (signedByte 0x00) = 0 := by decide

/-- C6: `connect` is idempotent while connected — a call that finds the
held client connected returns at once without touching the transport,
so two successive calls in the connected state leave the state exactly
as it was and perform zero (hence at most one) transport connect
calls.  The mutual-exclusion lock of the source is represented by the
sequential execution of each lock-protected run. -/
theorem C6_connect_idempotent (o1 o2 : ConnectOutcome) (st : MState)
    (h : clientIsConnected st = true) :
    connect o1 st = (st, none) ∧
    connect o2 (connect o1 st).1 = (st, none) ∧
    (connect o2 (connect o1 st).1).1.transportConnects = st.transportConnects := by
  simp [connect, h]

/-- C6 witness: the idempotence statement at a concrete connected
state. -/
theorem C6_connect_idempotent_witness :
    clientIsConnected connectedState = true ∧
    connect ConnectOutcome.success connectedState = (connectedState, none) :=
  ⟨by decide,
    (C6_connect_idempotent ConnectOutcome.success ConnectOutcome.success
      connectedState (by decide)).1⟩

/-- C7: every failing connect attempt (timeout, transport error or any
other exception) is caught inside `connect` — no exception escapes —
and ends with availability false and exactly one pending retry task,
scheduled to wait the fixed 60-second retry interval; scheduling it
cancels any previously pending retry task, so a single one remains. -/
theorem C7_connect_failure_caught (o : ConnectOutcome) (st : MState)
    (ho : o ≠ ConnectOutcome.success) (hc : clientIsConnected st = false) :
    (connect o st).2 = none ∧
    (connect o st).1._available = false ∧
    (connect o st).1._retry_task = some 60 := by
  cases o with
  | success => exact absurd rfl ho
  | timeoutError => simp [connect, hc]
  | bleakError => simp [connect, hc]
  | otherError => simp [connect, hc]

/-- C7 witness: a timed-out connect attempt from the idle state. -/
theorem C7_connect_failure_caught_witness :
    ConnectOutcome.timeoutError ≠ ConnectOutcome.success ∧
    clientIsConnected idleState = false ∧
    (connect ConnectOutcome.timeoutError idleState).1._retry_task = some 60 :=
  ⟨by decide, by decide,
    (C7_connect_failure_caught ConnectOutcome.timeoutError idleState
      (by decide) (by decide)).2.2⟩

/-- C8 counterexample: the claim says teardown cancels all pending
timers of both kinds.  From a state with a pending idle-disconnect
timer, `async_will_remove_from_hass` leaves that timer pending: it only
cancels the retry task. -/
theorem C8_counterexample :
    (async_will_remove_from_hass CloseOutcome.ok teardownState).1._disconnect_timer
      = some 60 ∧
    (some 60 : Option Nat) ≠ none := by decide

/-- C8 (amended): in every state, teardown cancels the pending retry
task, closes the connection (client handle cleared, availability
false), raises nothing, and is safe to call again — a second call
returns the same state and no error.  It does not cancel the pending
idle-disconnect timer, which stays exactly as it was. -/
theorem C8_teardown_amended (close : CloseOutcome) (st : MState) :
    (async_will_remove_from_hass close st).2 = none ∧
    (async_will_remove_from_hass close st).1._retry_task = none ∧
    (async_will_remove_from_hass close st).1._client = none ∧
    (async_will_remove_from_hass close st).1._available = false ∧
    (async_will_remove_from_hass close st).1._disconnect_timer = st._disconnect_timer ∧
    (∀ close2, async_will_remove_from_hass close2 (async_will_remove_from_hass close st).1
      = ((async_will_remove_from_hass close st).1, none)) := by
  refine ⟨?_, ?_, ?_, ?_, ?_, ?_⟩ <;>
    simp [teardown_result]

/-- C9: whatever `await self._client.disconnect()` does — return or
raise — `_disconnect` swallows the error and finishes with the client
handle cleared and availability false, returning no exception to its
caller. -/
theorem C9_disconnect_swallows_and_clears (close : CloseOutcome) (st : MState) :
    disconnect_coro close st =
      ({ st with _client := none, _available := false }, none) := by
  cases close <;> rfl

/-- C10: `decode_weight` reads the payload only through bytes 9-14: two
payloads of at least 15 bytes that agree on positions 9 through 14
decode to the same result, whatever their other bytes and lengths. -/
theorem C10_decode_depends_only_on_bytes_9_14 (d1 d2 : List Nat)
    (_h1 : 15 ≤ d1.length) (_h2 : 15 ≤ d2.length)
    (hagree : ∀ i, i < 15 → 9 ≤ i → d1[i]? = d2[i]?) :
    decode_weight d1 = decode_weight d2 :=
  decode_weight_eq_of_slice_eq d1 d2 (slice_9_15_eq d1 d2 hagree)

/-- C10 witness: the scenario payload against a 16-byte payload that
differs on every byte outside 9-14. -/
theorem C10_decode_depends_only_on_bytes_9_14_witness :
    15 ≤ scenarioPayload.length ∧ 15 ≤ altPayload.length ∧
    (∀ i, i < 15 → 9 ≤ i → scenarioPayload[i]? = altPayload[i]?) ∧
    decode_weight scenarioPayload = decode_weight altPayload :=
  ⟨by decide, by decide, by decide,
    C10_decode_depends_only_on_bytes_9_14 scenarioPayload altPayload
      (by decide) (by decide) (by decide)⟩
